import Mathlib

/-!
Shallow embedding of `src/h5file.rs` from the nexplore repository.

The underlying hdf5 format layer is an external collaborator; its handles
(`Location`, `Dataset`, `Group`, `File`) are modelled as records carrying the
results the layer would return for each primitive call.  A Rust panic
(an `unwrap` on a failing `Result`) is modelled by the `none` branch of an
`Option`, while a recoverable `Result::Err` value is modelled by
`Except.error`.  All `anyhow` errors in the source are bare message strings,
so errors are embedded as their exact message strings.
-/

/-- The fixed message of `anyhow!("Found link to entity of unknown kind")`
(src/h5file.rs line 62). -/
def unknownKindMsg : String := "Found link to entity of unknown kind"

/-- The message of `.context("Index was empty")` (src/h5file.rs lines 195 and 200). -/
def emptyPathMsg : String := "Index was empty"

/-- The message of `.context("No entity at index")` (src/h5file.rs line 196). -/
def outOfRangeMsg : String := "No entity at index"

/-- The message of `anyhow!("Cannot index into a dataset")` (src/h5file.rs line 202). -/
def notIndexableMsg : String := "Cannot index into a dataset"

/-- The message of `.context("No file in path")` (src/h5file.rs line 169). -/
def noFileMsg : String := "No file in path"

/-- The empty string. -/
def emptyStr : String := ""

/-- Characters after the last slash: the accumulator restarts at every
separator, so what is left at the end is the final segment. -/
def lastSegAux : List Char → List Char → List Char
  | [], acc => acc
  | c :: rest, acc =>
    if c = '/' then lastSegAux rest [] else lastSegAux rest (acc ++ [c])

/-- `name.split('/').next_back().unwrap()`: the last slash-separated segment
(empty when the name ends in a slash; `split` always yields at least one
segment, so the `unwrap` cannot fail). -/
def lastSegment (s : String) : String :=
  String.mk (lastSegAux s.data [])

/-- The hdf5 crate's native `LinkType` enumeration (external collaborator). -/
inductive LinkType where
  | hard
  | soft
  | external
deriving DecidableEq, Repr

/-- `LinkKind` (src/h5file.rs lines 130-135). -/
inductive LinkKind where
  | hard
  | soft
  | external
deriving DecidableEq, Repr

/-- `impl From<LinkType> for LinkKind` (src/h5file.rs lines 137-145). -/
def LinkKind.ofLinkType : LinkType → LinkKind
  | .hard => .hard
  | .soft => .soft
  | .external => .external

/-- The hdf5 crate's `LinkInfo` record (external collaborator). -/
structure LinkInfo where
  linkType : LinkType
  creationOrder : Option Int
  isUtf8 : Bool
deriving DecidableEq, Repr

/-- An hdf5 `Location` handle, modelled by the results of its two attribute
primitives: `attr_names()` (a fallible listing) and, for each name,
`attr(&name)` rendered to its display string (`none` models a failing read,
on which the source's `unwrap` panics). -/
structure Location where
  attrNames : Except String (List String)
  attr : String → Option String

/-- `HashMap::insert` semantics on an association-list model of
`HashMap<String, String>`: the key occurs at most once, last write wins. -/
def hmInsert (m : List (String × String)) (k v : String) : List (String × String) :=
  (m.filter (fun p => p.1 ≠ k)) ++ [(k, v)]

/-- The loop body of `get_attrs` (src/h5file.rs lines 31-34): for each listed
name, `location.attr(&name).unwrap()` (panic modelled as `none`), then insert
the rendered value. -/
def getAttrsLoop (loc : Location) : List String → List (String × String) →
    Option (List (String × String))
  | [], acc => some acc
  | n :: rest, acc =>
    match loc.attr n with
    | none => none
    | some v => getAttrsLoop loc rest (hmInsert acc n v)

/-- `get_attrs` (src/h5file.rs lines 28-37): if `attr_names()` fails the map
stays empty; otherwise every listed name is read with an unguarded `unwrap`. -/
def getAttrs (loc : Location) : Option (List (String × String)) :=
  match loc.attrNames with
  | .error _ => some []
  | .ok names => getAttrsLoop loc names []

/-- Opaque token for the hdf5 crate's filter type (external collaborator);
the source only stores the filter list, never inspects it. -/
structure H5Filter where
  tag : Nat
deriving DecidableEq, Repr

/-- Opaque token for the hdf5 crate's `TypeDescriptor` (external
collaborator); the source only stores it, never inspects it. -/
structure TypeDescriptor where
  tag : Nat
deriving DecidableEq, Repr

/-- The hdf5 crate's `Layout` tag (external collaborator). -/
inductive Layout where
  | compact
  | contiguous
  | chunked
  | virtual_
deriving DecidableEq, Repr

/-- An hdf5 `Dataset` handle, modelled by the results of the primitives the
source calls on it: `name()`, `id()`, `shape()` (infallible in the crate),
`layout()` (infallible), `chunk()` (fallible, `unwrap`ped), `filters()`
(infallible), `dtype().unwrap().to_descriptor().unwrap()` (collapsed into one
fallible descriptor), and the attribute primitives. -/
structure NativeDataset where
  name : String
  id : Int
  shape : List Nat
  layout : Layout
  chunk : Option (List Nat)
  filters : List H5Filter
  dtype : Option TypeDescriptor
  loc : Location

/-- `DatasetLayoutInfo` (src/h5file.rs lines 90-99); the source's spelling
`Virtial` is kept. -/
inductive DatasetLayoutInfo where
  | compact
  | contiguous
  | chunked (chunkShape : List Nat) (filters : List H5Filter)
  | virtial
deriving DecidableEq, Repr

/-- `DatasetInfo` (src/h5file.rs lines 79-88), with `HashMap` as an
association list. -/
structure DatasetInfo where
  name : String
  id : Int
  linkType : LinkKind
  shape : List Nat
  layoutInfo : DatasetLayoutInfo
  dtypeDescr : TypeDescriptor
  attrs : List (String × String)

/-- The layout dispatch of `DatasetInfo::from_dataset_and_link`
(src/h5file.rs lines 106-114): only the `Chunked` arm calls the fallible
`dataset.chunk().unwrap()`. -/
def datasetLayoutStep (d : NativeDataset) : Option DatasetLayoutInfo :=
  match d.layout with
  | .compact => some .compact
  | .contiguous => some .contiguous
  | .chunked => d.chunk.map (fun cs => .chunked cs d.filters)
  | .virtual_ => some .virtial

/-- `DatasetInfo::from_dataset_and_link` (src/h5file.rs lines 101-128).
Returns `Option` because the source's signature returns `Self` and every
failure path is an `unwrap` panic, never an error value. -/
def DatasetInfo.fromDatasetAndLink (d : NativeDataset) (link : LinkInfo) :
    Option DatasetInfo :=
  match datasetLayoutStep d with
  | none => none
  | some layoutInfo =>
    match d.dtype with
    | none => none
    | some td =>
      match getAttrs d.loc with
      | none => none
      | some attrs =>
        some { name := lastSegment d.name, id := d.id,
               linkType := LinkKind.ofLinkType link.linkType,
               shape := d.shape, layoutInfo := layoutInfo,
               dtypeDescr := td, attrs := attrs }

/-! ### The output tree: `EntityInfo` / `GroupInfo` (src/h5file.rs lines 13-46) -/

mutual

/-- `EntityInfo` (src/h5file.rs lines 13-17). -/
inductive EntityInfo where
  | group (g : GroupInfo)
  | dataset (d : DatasetInfo)

/-- `GroupInfo` (src/h5file.rs lines 39-46), with `HashMap` as an
association list. -/
inductive GroupInfo where
  | mk (name : String) (id : Int) (linkKind : LinkKind)
       (entities : List EntityInfo) (attrs : List (String × String))

end

/-- Projection: `GroupInfo.name`. -/
def GroupInfo.name : GroupInfo → String
  | .mk n _ _ _ _ => n

/-- Projection: `GroupInfo.id`. -/
def GroupInfo.id : GroupInfo → Int
  | .mk _ i _ _ _ => i

/-- Projection: `GroupInfo.link_kind`. -/
def GroupInfo.linkKind : GroupInfo → LinkKind
  | .mk _ _ k _ _ => k

/-- Projection: `GroupInfo.entities`. -/
def GroupInfo.entities : GroupInfo → List EntityInfo
  | .mk _ _ _ es _ => es

/-- Projection: `GroupInfo.attrs`. -/
def GroupInfo.attrs : GroupInfo → List (String × String)
  | .mk _ _ _ _ a => a

/-! ### The native side of the traversal

`Group::iter_visit_default` hands the closure each child's key and
`LinkInfo`; the closure then tries `group.group(key)` and `group.dataset(key)`.
A native group handle is therefore modelled as its name, id, attribute
source and the ordered child list the iteration would report, each child
being a group handle, a dataset handle, or neither (`unknown`, on which both
opens fail). -/

mutual

/-- An hdf5 `Group` handle (external collaborator), as seen by the source. -/
inductive NativeGroup where
  | mk (name : String) (id : Int) (loc : Location) (children : NativeEntries)

/-- The ordered child-link sequence reported by `iter_visit_default`. -/
inductive NativeEntries where
  | nil
  | cons (key : String) (link : LinkInfo) (child : NativeChild) (rest : NativeEntries)

/-- What a child link opens as: a group, a dataset, or neither. -/
inductive NativeChild where
  | group (g : NativeGroup)
  | dataset (d : NativeDataset)
  | unknown

end

/-- Projection: the child list of a native group handle. -/
def NativeGroup.children : NativeGroup → NativeEntries
  | .mk _ _ _ cs => cs

/-- Whether some direct child link opens neither as group nor as dataset. -/
def NativeEntries.hasUnknown : NativeEntries → Bool
  | .nil => false
  | .cons _ _ .unknown _ => true
  | .cons _ _ _ rest => rest.hasUnknown

/-- `collect::<Result<Vec<_>, _>>()` (src/h5file.rs line 68): the first
error aborts, otherwise the ordered list of successes. -/
def collectResults : List (Except String EntityInfo) → Except String (List EntityInfo)
  | [] => .ok []
  | .error e :: _ => .error e
  | .ok x :: rest => (collectResults rest).map (fun xs => x :: xs)

mutual

/-- `GroupInfo::try_from_group_and_link` (src/h5file.rs lines 48-76).
`none` models a panic (an `unwrap` failing somewhere inside);
`some (.error e)` models `Err(e)`; `some (.ok gi)` models `Ok(gi)`. -/
def GroupInfo.tryFromGroupAndLink : NativeGroup → LinkInfo →
    Option (Except String GroupInfo)
  | .mk name id loc children, link =>
    match getAttrs loc with
    | none => none
    | some attrs =>
      match buildEntries children with
      | none => none
      | some results =>
        match collectResults results with
        | .error e => some (.error e)
        | .ok entities =>
          some (.ok (.mk (lastSegment name) id
            (LinkKind.ofLinkType link.linkType) entities attrs))

/-- The closure of `iter_visit_default` (src/h5file.rs lines 54-65), run over
the whole child list: it always returns `true`, so every child is visited and
its `Result` pushed, but any panic aborts everything. -/
def buildEntries : NativeEntries → Option (List (Except String EntityInfo))
  | .nil => some []
  | .cons key link child rest =>
    match buildEntry key link child with
    | none => none
    | some r =>
      match buildEntries rest with
      | none => none
      | some rs => some (r :: rs)

/-- One child step of the closure: try to open as group, then as dataset,
else the unknown-kind error (src/h5file.rs lines 55-63). -/
def buildEntry (_key : String) (link : LinkInfo) : NativeChild →
    Option (Except String EntityInfo)
  | .group g =>
    match GroupInfo.tryFromGroupAndLink g link with
    | none => none
    | some r => some (r.map EntityInfo.group)
  | .dataset d =>
    match DatasetInfo.fromDatasetAndLink d link with
    | none => none
    | some di => some (.ok (.dataset di))
  | .unknown => some (.error unknownKindMsg)

end

/-- `FileInfo` (src/h5file.rs lines 157-162). -/
structure FileInfo where
  name : String
  size : Nat
  entities : List EntityInfo

/-- An hdf5 `File` handle (external collaborator), modelled by the results of
the primitives `FileInfo::read` calls on it: `size()` and `as_group()`. -/
structure NativeFile where
  size : Nat
  asGroup : Except String NativeGroup

/-- The root `LinkInfo` synthesized by `FileInfo::read`
(src/h5file.rs lines 176-180). -/
def rootLinkInfo : LinkInfo :=
  { linkType := .hard, creationOrder := none, isUtf8 := true }

/-- `FileInfo::read` (src/h5file.rs lines 165-189).  The path is modelled by
what `path.file_name()` returns (`none`: no file-name component) and
`File::open(path)` by the `Except` it produces. -/
def FileInfo.read (fileName : Option String) (openResult : Except String NativeFile) :
    Option (Except String FileInfo) :=
  match fileName with
  | none => some (.error noFileMsg)
  | some name =>
    match openResult with
    | .error e => some (.error e)
    | .ok file =>
      match file.asGroup with
      | .error e => some (.error e)
      | .ok root =>
        match GroupInfo.tryFromGroupAndLink root rootLinkInfo with
        | none => none
        | some (.error e) => some (.error e)
        | some (.ok gi) =>
          some (.ok { name := name, size := file.size, entities := gi.entities })

/-- The loop of `FileInfo::entity` (src/h5file.rs lines 197-204): walk the
remaining indices from the current node. -/
def entityLoop : EntityInfo → List Nat → Except String EntityInfo
  | e, [] => .ok e
  | e, idx :: rest =>
    match e with
    | .group g =>
      match g.entities.get? idx with
      | none => .error emptyPathMsg
      | some e2 => entityLoop e2 rest
    | .dataset _ => .error notIndexableMsg

/-- `FileInfo::entity` (src/h5file.rs lines 191-206). -/
def FileInfo.entity (f : FileInfo) (index : List Nat) : Except String EntityInfo :=
  match index with
  | [] => .error emptyPathMsg
  | i :: rest =>
    match f.entities.get? i with
    | none => .error outOfRangeMsg
    | some e => entityLoop e rest

/-! ### Concrete fixtures used by witnesses and counterexamples -/

/-- A single attribute name used in fixtures. -/
def aStr : String := "a"

/-- A rendered attribute value used in fixtures. -/
def vStr : String := "v"

/-- A child-link key used in fixtures. -/
def fooStr : String := "foo"

/-- Another child-link key used in fixtures. -/
def barStr : String := "bar"

/-- A file name used in fixtures. -/
def fileStr : String := "f.h5"

/-- A location whose attribute listing fails and whose reads all fail. -/
def locFail : Location :=
  { attrNames := Except.error emptyStr, attr := fun _ => none }

/-- A location listing one attribute whose read succeeds. -/
def locList : Location :=
  { attrNames := Except.ok [aStr], attr := fun _ => some vStr }

/-- A location listing one attribute whose read fails: the unguarded
`unwrap` in `get_attrs` panics on it. -/
def locListBad : Location :=
  { attrNames := Except.ok [aStr], attr := fun _ => none }

/-- A fixture type descriptor. -/
def td0 : TypeDescriptor := { tag := 0 }

/-- A well-formed compact dataset handle. -/
def dsOkW : NativeDataset :=
  { name := aStr, id := 1, shape := [2, 3], layout := .compact, chunk := none,
    filters := [], dtype := some td0, loc := locFail }

/-- A dataset handle whose element-type descriptor is unavailable. -/
def dsBadDtype : NativeDataset :=
  { name := aStr, id := 1, shape := [2, 3], layout := .compact, chunk := none,
    filters := [], dtype := none, loc := locFail }

/-- A chunked dataset handle whose `chunk()` call fails. -/
def dsBadChunk : NativeDataset :=
  { name := aStr, id := 1, shape := [2, 3], layout := .chunked, chunk := none,
    filters := [], dtype := some td0, loc := locFail }

/-- A group whose sole child link (keyed `foo`) opens as neither group nor
dataset. -/
def gFoo : NativeGroup :=
  .mk aStr 0 locFail (.cons fooStr rootLinkInfo .unknown .nil)

/-- Same as `gFoo` except the offending link is keyed `bar`. -/
def gBar : NativeGroup :=
  .mk aStr 0 locFail (.cons barStr rootLinkInfo .unknown .nil)

/-- A group whose sole child is the dataset with the missing descriptor. -/
def gBadDs : NativeGroup :=
  .mk aStr 0 locFail (.cons aStr rootLinkInfo (.dataset dsBadDtype) .nil)

/-- A well-formed native root group with one dataset child. -/
def rootGW : NativeGroup :=
  .mk emptyStr 0 locFail (.cons aStr rootLinkInfo (.dataset dsOkW) .nil)

/-- A native file handle exposing `rootGW` as its root. -/
def fileW : NativeFile := { size := 7, asGroup := Except.ok rootGW }

/-- The dataset descriptor built from `dsOkW` under a hard link. -/
def diW : DatasetInfo :=
  { name := aStr, id := 1, linkType := .hard, shape := [2, 3],
    layoutInfo := .compact, dtypeDescr := td0, attrs := [] }

/-- A built tree holding one childless group, used to exhibit the
out-of-range error messages of `FileInfo::entity`. -/
def fBug : FileInfo :=
  { name := emptyStr, size := 0,
    entities := [.group (.mk aStr 1 .hard [] [])] }

/-- A built tree holding one dataset at the top level. -/
def fDs : FileInfo :=
  { name := emptyStr, size := 0, entities := [.dataset diW] }

/-- The `FileInfo` that loading `fileW` produces. -/
def fiW : FileInfo :=
  { name := fileStr, size := 7, entities := [.dataset diW] }

/-! ### Helper lemmas -/

theorem collectResults_error_mem {rs : List (Except String EntityInfo)} {e : String}
    (h : collectResults rs = .error e) : Except.error e ∈ rs := by
  induction rs with
  | nil => simp [collectResults] at h
  | cons r rest ih =>
    cases r with
    | error e2 =>
      simp [collectResults] at h
      subst h
      exact List.mem_cons_self _ _
    | ok x =>
      cases hrest : collectResults rest with
      | error e2 =>
        simp [collectResults, hrest, Except.map] at h
        subst h
        exact List.mem_cons_of_mem _ (ih hrest)
      | ok xs => simp [collectResults, hrest, Except.map] at h

theorem collectResults_ok_no_error {rs : List (Except String EntityInfo)}
    {xs : List EntityInfo} {e : String}
    (h : collectResults rs = .ok xs) (hm : Except.error e ∈ rs) : False := by
  induction rs generalizing xs with
  | nil => simp at hm
  | cons r rest ih =>
    cases r with
    | error e2 => simp [collectResults] at h
    | ok x =>
      cases hrest : collectResults rest with
      | error e2 => simp [collectResults, hrest, Except.map] at h
      | ok ys =>
        rcases List.mem_cons.mp hm with h1 | h2
        · exact Except.noConfusion h1
        · exact ih hrest h2

theorem entityLoop_append (l1 : List Nat) (e : EntityInfo) (l2 : List Nat) :
    entityLoop e (l1 ++ l2) =
      match entityLoop e l1 with
      | .ok e2 => entityLoop e2 l2
      | .error m => .error m := by
  induction l1 generalizing e with
  | nil => simp [entityLoop]
  | cons idx rest ih =>
    cases e with
    | dataset d => simp [entityLoop]
    | group g =>
      simp only [List.cons_append, entityLoop]
      cases hg : g.entities.get? idx with
      | none => simp
      | some e2 => exact ih e2

theorem hmInsert_keys_mem (acc : List (String × String)) (k v s : String) :
    s ∈ (hmInsert acc k v).map Prod.fst ↔ s = k ∨ s ∈ acc.map Prod.fst := by
  simp only [hmInsert, List.map_append, List.mem_append, List.mem_map,
    List.mem_filter, List.map_cons, List.map_nil, List.mem_singleton]
  constructor
  · rintro (⟨p, ⟨hp, -⟩, rfl⟩ | rfl)
    · exact Or.inr ⟨p, hp, rfl⟩
    · exact Or.inl rfl
  · rintro (rfl | ⟨p, hp, rfl⟩)
    · exact Or.inr rfl
    · by_cases hk : p.1 = k
      · exact Or.inr hk
      · exact Or.inl ⟨p, ⟨hp, by simpa using hk⟩, rfl⟩

theorem hmInsert_keys_nodup (acc : List (String × String)) (k v : String)
    (h : (acc.map Prod.fst).Nodup) : ((hmInsert acc k v).map Prod.fst).Nodup := by
  simp only [hmInsert, List.map_append, List.map_cons, List.map_nil]
  apply List.Nodup.append
  · exact ((List.filter_sublist acc).map Prod.fst).nodup h
  · exact List.nodup_singleton k
  · intro s hs hs2
    simp only [List.mem_singleton] at hs2
    subst hs2
    obtain ⟨p, hp, rfl⟩ := List.mem_map.mp hs
    have := (List.mem_filter.mp hp).2
    simp at this

theorem getAttrsLoop_panic (loc : Location) (names : List String)
    (n : String) (hn : n ∈ names) (hfail : loc.attr n = none) :
    ∀ acc, getAttrsLoop loc names acc = none := by
  induction names with
  | nil => simp at hn
  | cons m rest ih =>
    intro acc
    rcases List.mem_cons.mp hn with rfl | hmem
    · simp [getAttrsLoop, hfail]
    · cases hm : loc.attr m with
      | none => simp [getAttrsLoop, hm]
      | some v => simp [getAttrsLoop, hm, ih hmem]

theorem getAttrsLoop_ok (loc : Location) (names : List String)
    (hok : ∀ n ∈ names, (loc.attr n).isSome) :
    ∀ acc, ∃ m, getAttrsLoop loc names acc = some m ∧
      (∀ s, s ∈ m.map Prod.fst ↔ s ∈ names ∨ s ∈ acc.map Prod.fst) ∧
      ((acc.map Prod.fst).Nodup → (m.map Prod.fst).Nodup) := by
  induction names with
  | nil =>
    intro acc
    exact ⟨acc, rfl, by simp, fun h => h⟩
  | cons n rest ih =>
    intro acc
    have hn : (loc.attr n).isSome := hok n (List.mem_cons_self _ _)
    obtain ⟨v, hv⟩ := Option.isSome_iff_exists.mp hn
    have hrest : ∀ x ∈ rest, (loc.attr x).isSome :=
      fun x hx => hok x (List.mem_cons_of_mem _ hx)
    obtain ⟨m, hm, hkeys, hnd⟩ := ih hrest (hmInsert acc n v)
    refine ⟨m, ?_, ?_, ?_⟩
    · simp [getAttrsLoop, hv, hm]
    · intro s
      rw [hkeys s, hmInsert_keys_mem]
      simp [List.mem_cons]
      tauto
    · intro hacc
      exact hnd (hmInsert_keys_nodup acc n v hacc)

theorem buildEntries_hasUnknown_error :
    ∀ (l : NativeEntries) (rs : List (Except String EntityInfo)),
      buildEntries l = some rs → l.hasUnknown = true →
      ∃ e, Except.error e ∈ rs
  | .nil, rs, _, hu => by simp [NativeEntries.hasUnknown] at hu
  | .cons k li c rest, rs, hb, hu => by
    simp only [buildEntries] at hb
    cases hc : buildEntry k li c with
    | none => rw [hc] at hb; exact absurd hb (by simp)
    | some r =>
      rw [hc] at hb
      cases hr : buildEntries rest with
      | none => rw [hr] at hb; exact absurd hb (by simp)
      | some rs2 =>
        rw [hr] at hb
        simp only [Option.some.injEq] at hb
        subst hb
        cases c with
        | unknown =>
          refine ⟨unknownKindMsg, ?_⟩
          simp only [buildEntry, Option.some.injEq] at hc
          rw [← hc]
          exact List.mem_cons_self _ _
        | group g =>
          have hu2 : rest.hasUnknown = true := by
            simpa [NativeEntries.hasUnknown] using hu
          obtain ⟨e, he⟩ := buildEntries_hasUnknown_error rest rs2 hr hu2
          exact ⟨e, List.mem_cons_of_mem _ he⟩
        | dataset d =>
          have hu2 : rest.hasUnknown = true := by
            simpa [NativeEntries.hasUnknown] using hu
          obtain ⟨e, he⟩ := buildEntries_hasUnknown_error rest rs2 hr hu2
          exact ⟨e, List.mem_cons_of_mem _ he⟩

mutual

theorem tryFrom_err_eq (g : NativeGroup) (link : LinkInfo) (e : String)
    (h : GroupInfo.tryFromGroupAndLink g link = some (Except.error e)) :
    e = unknownKindMsg := by
  obtain ⟨name, id, loc, children⟩ := g
  cases ha : getAttrs loc with
  | none => simp [GroupInfo.tryFromGroupAndLink, ha] at h
  | some attrs =>
    cases hb : buildEntries children with
    | none => simp [GroupInfo.tryFromGroupAndLink, ha, hb] at h
    | some rs =>
      cases hc : collectResults rs with
      | error e2 =>
        have he : e = e2 := by
          simp [GroupInfo.tryFromGroupAndLink, ha, hb, hc] at h
          exact h.symm
        subst he
        exact buildEntries_err_eq children rs e hb (collectResults_error_mem hc)
      | ok xs => simp [GroupInfo.tryFromGroupAndLink, ha, hb, hc] at h

theorem buildEntries_err_eq (l : NativeEntries) (rs : List (Except String EntityInfo))
    (e : String) (hb : buildEntries l = some rs) (hm : Except.error e ∈ rs) :
    e = unknownKindMsg := by
  cases l with
  | nil =>
    simp only [buildEntries, Option.some.injEq] at hb
    subst hb
    simp at hm
  | cons k li c rest =>
    simp only [buildEntries] at hb
    cases hc : buildEntry k li c with
    | none => rw [hc] at hb; exact absurd hb (by simp)
    | some r =>
      rw [hc] at hb
      cases hr : buildEntries rest with
      | none => rw [hr] at hb; exact absurd hb (by simp)
      | some rs2 =>
        rw [hr] at hb
        simp only [Option.some.injEq] at hb
        subst hb
        rcases List.mem_cons.mp hm with h1 | h2
        · exact buildEntry_err_eq k li c e (h1 ▸ hc)
        · exact buildEntries_err_eq rest rs2 e hr h2

theorem buildEntry_err_eq (k : String) (link : LinkInfo) (c : NativeChild) (e : String)
    (h : buildEntry k link c = some (Except.error e)) : e = unknownKindMsg := by
  cases c with
  | group g =>
    cases hg : GroupInfo.tryFromGroupAndLink g link with
    | none => simp [buildEntry, hg] at h
    | some r =>
      cases r with
      | error e2 =>
        have he : e = e2 := by
          simp [buildEntry, hg, Except.map] at h
          exact h.symm
        subst he
        exact tryFrom_err_eq g link e hg
      | ok gi => simp [buildEntry, hg, Except.map] at h
  | dataset d =>
    cases hd : DatasetInfo.fromDatasetAndLink d link with
    | none => simp [buildEntry, hd] at h
    | some di => simp [buildEntry, hd] at h
  | unknown =>
    simp only [buildEntry, Option.some.injEq, Except.error.injEq] at h
    exact h.symm

end

/-! ### Claim theorems -/

/-- C6: for every built tree, `FileInfo::entity` applied to the empty index
path fails, and it fails with the Empty-Path error kind (the
`"Index was empty"` context of src/h5file.rs line 195). -/
theorem entity_empty_path_fails (f : FileInfo) :
    f.entity [] = Except.error emptyPathMsg := rfl

/-- C8: the link classifier is a pure total function from the native
link-type enumeration onto the three `LinkKind`s, sending native `Hard` to
`Hard`, `Soft` to `Soft` and `External` to `External`, with no failure
path (it is a plain function, not an `Option` or `Result`). -/
theorem linkKind_classifier_total :
    LinkKind.ofLinkType .hard = .hard ∧ LinkKind.ofLinkType .soft = .soft ∧
    LinkKind.ofLinkType .external = .external ∧
    ∀ t : LinkType, LinkKind.ofLinkType t = .hard ∨
      LinkKind.ofLinkType t = .soft ∨ LinkKind.ofLinkType t = .external := by
  refine ⟨rfl, rfl, rfl, fun t => ?_⟩
  cases t
  · exact Or.inl rfl
  · exact Or.inr (Or.inl rfl)
  · exact Or.inr (Or.inr rfl)

/-- C10: for every built tree and every in-range single-element path `[i]`,
`FileInfo::entity` succeeds and returns the `i`-th root-level entity,
whatever its variant: the group requirement only applies from the second
index onward. -/
theorem entity_single_index_in_range (f : FileInfo) (i : Nat)
    (h : i < f.entities.length) :
    f.entity [i] = Except.ok (f.entities.get ⟨i, h⟩) := by
  simp [FileInfo.entity, List.getElem?_eq_getElem h, entityLoop]

/-- Witness for C10: index 0 of `fDs` is in range and resolves to its
dataset entry. -/
theorem entity_single_index_in_range_witness :
    0 < fDs.entities.length ∧
    fDs.entity [0] = Except.ok (fDs.entities.get ⟨0, by decide⟩) :=
  ⟨by decide, entity_single_index_in_range fDs 0 (by decide)⟩

/-- C7: whenever the attribute-name listing of an entity fails, `get_attrs`
returns the empty mapping instead of panicking or failing the entity
build. -/
theorem getAttrs_listing_failure_empty (loc : Location) (e : String)
    (h : loc.attrNames = Except.error e) : getAttrs loc = some [] := by
  simp [getAttrs, h]

/-- Witness for C7: `locFail` has a failing listing and gets the empty
mapping. -/
theorem getAttrs_listing_failure_empty_witness :
    locFail.attrNames = Except.error emptyStr ∧ getAttrs locFail = some [] :=
  ⟨rfl, getAttrs_listing_failure_empty locFail emptyStr rfl⟩

/-- C2 is contradicted by the code: on the tree `fBug` (one childless group
at the root), the out-of-range index at the second step produces the
`"Index was empty"` message — the Empty-Path error kind of line 195, reused
verbatim by the copy-pasted context on line 200 — while the out-of-range
index at the first step produces `"No entity at index"`.  The two
out-of-range kinds differ, and the second-step kind collides with
Empty-Path. -/
theorem entity_out_of_range_kind_mismatch :
    fBug.entity [0, 0] = Except.error emptyPathMsg ∧
    fBug.entity [] = Except.error emptyPathMsg ∧
    fBug.entity [1] = Except.error outOfRangeMsg ∧
    emptyPathMsg ≠ outOfRangeMsg :=
  ⟨rfl, rfl, rfl, by decide⟩

/-- C5: whenever a proper prefix of an index path resolves to a Dataset node
and the path continues beyond it, `FileInfo::entity` fails with the
Not-Indexable error kind (`"Cannot index into a dataset"`). -/
theorem entity_dataset_prefix_not_indexable (f : FileInfo) (p : List Nat)
    (d : DatasetInfo) (i : Nat) (rest : List Nat)
    (h : f.entity p = Except.ok (.dataset d)) :
    f.entity (p ++ i :: rest) = Except.error notIndexableMsg := by
  cases p with
  | nil => simp [FileInfo.entity] at h
  | cons j p2 =>
    simp only [FileInfo.entity, List.cons_append] at h ⊢
    cases hg : f.entities.get? j with
    | none => rw [hg] at h; exact absurd h (by simp)
    | some e =>
      simp only [hg] at h ⊢
      rw [entityLoop_append]
      simp only [h]
      simp [entityLoop]

/-- Witness for C5: in `fDs` the prefix `[0]` resolves to a dataset, and the
continued path `[0, 1]` fails with Not-Indexable. -/
theorem entity_dataset_prefix_not_indexable_witness :
    fDs.entity [0] = Except.ok (.dataset diW) ∧
    fDs.entity [0, 1] = Except.error notIndexableMsg :=
  ⟨rfl, entity_dataset_prefix_not_indexable fDs [0] diW 1 [] rfl⟩

/-- C9: when the attribute listing succeeds, `get_attrs` reads every listed
name with an unguarded `unwrap`.  If every listed attribute is readable the
panic branch is unreachable and the returned map has exactly the listed
names as its keys, each once; if any listed attribute is unreadable the
whole call aborts (`none`), neither skipping the attribute nor returning an
error value. -/
theorem getAttrs_unwrap_behavior (loc : Location) (names : List String)
    (hls : loc.attrNames = Except.ok names) :
    ((∀ n ∈ names, (loc.attr n).isSome) →
      ∃ m, getAttrs loc = some m ∧
        (∀ s, s ∈ m.map Prod.fst ↔ s ∈ names) ∧ (m.map Prod.fst).Nodup) ∧
    (∀ n ∈ names, loc.attr n = none → getAttrs loc = none) := by
  constructor
  · intro hok
    obtain ⟨m, hm, hkeys, hnd⟩ := getAttrsLoop_ok loc names hok []
    refine ⟨m, ?_, ?_, ?_⟩
    · simp [getAttrs, hls, hm]
    · intro s
      simpa using hkeys s
    · exact hnd (by simp)
  · intro n hn hfail
    simp [getAttrs, hls, getAttrsLoop_panic loc names n hn hfail]

/-- Witness for C9: `locList` lists one readable attribute and yields a
one-entry map; `locListBad` lists one unreadable attribute and the call
aborts. -/
theorem getAttrs_unwrap_behavior_witness :
    locList.attrNames = Except.ok [aStr] ∧
    (∃ m, getAttrs locList = some m ∧
      (∀ s, s ∈ m.map Prod.fst ↔ s ∈ [aStr]) ∧ (m.map Prod.fst).Nodup) ∧
    locListBad.attrNames = Except.ok [aStr] ∧
    getAttrs locListBad = none :=
  ⟨rfl,
   (getAttrs_unwrap_behavior locList [aStr] rfl).1 (fun n _ => rfl),
   rfl,
   (getAttrs_unwrap_behavior locListBad [aStr] rfl).2 aStr (by simp) rfl⟩

/-- C1 (amended): if any direct child link of a group opens neither as a
group nor as a dataset, then whenever `GroupInfo::try_from_group_and_link`
returns at all (instead of panicking elsewhere), it returns the
Unknown-Entity-Kind error — whose payload is the fixed message
`"Found link to entity of unknown kind"`, which does not name the offending
link — and no `GroupInfo` for the group is produced. -/
theorem unknownChild_forces_unknownKind_error (g : NativeGroup) (link : LinkInfo)
    (r : Except String GroupInfo)
    (hu : g.children.hasUnknown = true)
    (hb : GroupInfo.tryFromGroupAndLink g link = some r) :
    r = Except.error unknownKindMsg := by
  obtain ⟨name, id, loc, children⟩ := g
  simp only [NativeGroup.children] at hu
  cases ha : getAttrs loc with
  | none => simp [GroupInfo.tryFromGroupAndLink, ha] at hb
  | some attrs =>
    cases he : buildEntries children with
    | none => simp [GroupInfo.tryFromGroupAndLink, ha, he] at hb
    | some rs =>
      cases hc : collectResults rs with
      | error e2 =>
        have hr : r = Except.error e2 := by
          simp [GroupInfo.tryFromGroupAndLink, ha, he, hc] at hb
          exact hb.symm
        rw [hr, buildEntries_err_eq children rs e2 he (collectResults_error_mem hc)]
      | ok xs =>
        obtain ⟨e, hmem⟩ := buildEntries_hasUnknown_error children rs he hu
        exact (collectResults_ok_no_error hc hmem).elim

/-- Counterexample to C1 as stated: the error payload does not identify the
offending link's name.  Two groups whose only malformed child links are
named `foo` and `bar` produce the identical fixed-message error, so no
function of the payload can recover the link name. -/
theorem unknownKind_error_payload_ignores_link_name :
    GroupInfo.tryFromGroupAndLink gFoo rootLinkInfo
      = some (Except.error unknownKindMsg) ∧
    GroupInfo.tryFromGroupAndLink gBar rootLinkInfo
      = some (Except.error unknownKindMsg) ∧
    GroupInfo.tryFromGroupAndLink gFoo rootLinkInfo
      = GroupInfo.tryFromGroupAndLink gBar rootLinkInfo ∧
    fooStr ≠ barStr :=
  ⟨rfl, rfl, rfl, by decide⟩

/-- Witness for C1 (amended): `gFoo` has an unknown-kind child and its build
returns the fixed-message error. -/
theorem unknownChild_forces_unknownKind_error_witness :
    gFoo.children.hasUnknown = true ∧
    (Except.error unknownKindMsg : Except String GroupInfo)
      = Except.error unknownKindMsg :=
  ⟨rfl, unknownChild_forces_unknownKind_error gFoo rootLinkInfo
    (Except.error unknownKindMsg) rfl rfl⟩

/-- Counterexample to C3 as stated: when the element-type descriptor is
unavailable, `DatasetInfo::from_dataset_and_link` does not return an error
value to its caller — it panics (modelled by `none`), and the enclosing
group build aborts with the same panic rather than an `Err`. -/
theorem missing_dtype_panics_not_error :
    DatasetInfo.fromDatasetAndLink dsBadDtype rootLinkInfo = none ∧
    GroupInfo.tryFromGroupAndLink gBadDs rootLinkInfo = none :=
  ⟨rfl, rfl⟩

/-- C3 (amended): when the format layer fails to expose chunk information
(for a chunked dataset) or the element-type descriptor,
`DatasetInfo::from_dataset_and_link` aborts unrecoverably (an `unwrap`
panic, modelled by `none`) instead of returning an error value; shape is
exposed infallibly by the layer; and when the layout step, the descriptor
and the attribute pass all succeed it returns the complete `DatasetInfo`
assembled from them. -/
theorem fromDataset_panics_or_complete (d : NativeDataset) (link : LinkInfo) :
    (((d.layout = .chunked ∧ d.chunk = none) ∨ d.dtype = none) →
      DatasetInfo.fromDatasetAndLink d link = none) ∧
    (∀ li td attrs, datasetLayoutStep d = some li → d.dtype = some td →
      getAttrs d.loc = some attrs →
      DatasetInfo.fromDatasetAndLink d link =
        some { name := lastSegment d.name, id := d.id,
               linkType := LinkKind.ofLinkType link.linkType, shape := d.shape,
               layoutInfo := li, dtypeDescr := td, attrs := attrs }) := by
  constructor
  · rintro (⟨hl, hc⟩ | hd)
    · simp [DatasetInfo.fromDatasetAndLink, datasetLayoutStep, hl, hc]
    · cases hls : datasetLayoutStep d with
      | none => simp [DatasetInfo.fromDatasetAndLink, hls]
      | some li => simp [DatasetInfo.fromDatasetAndLink, hls, hd]
  · intro li td attrs h1 h2 h3
    simp [DatasetInfo.fromDatasetAndLink, h1, h2, h3]

/-- Witness for C3 (amended): the chunked dataset with a failing `chunk()`
panics, and the well-formed compact dataset builds completely. -/
theorem fromDataset_panics_or_complete_witness :
    (dsBadChunk.layout = Layout.chunked ∧ dsBadChunk.chunk = none) ∧
    DatasetInfo.fromDatasetAndLink dsBadChunk rootLinkInfo = none ∧
    datasetLayoutStep dsOkW = some DatasetLayoutInfo.compact ∧
    DatasetInfo.fromDatasetAndLink dsOkW rootLinkInfo = some diW :=
  ⟨⟨rfl, rfl⟩,
   (fromDataset_panics_or_complete dsBadChunk rootLinkInfo).1 (Or.inl ⟨rfl, rfl⟩),
   rfl,
   (fromDataset_panics_or_complete dsOkW rootLinkInfo).2
     DatasetLayoutInfo.compact td0 [] rfl rfl rfl⟩

/-- C4: every successful `FileInfo::read` went through the synthesized root
link — which is tagged Hard — and the returned `entities` field is exactly
the `entities` of the `GroupInfo` built for the root: the synthetic root
group node itself is not retained as a wrapper in the returned tree. -/
theorem read_root_link_hard_and_children_surfaced (fn : Option String)
    (op : Except String NativeFile) (fi : FileInfo)
    (h : FileInfo.read fn op = some (Except.ok fi)) :
    rootLinkInfo.linkType = LinkType.hard ∧
    ∃ name file root gi, fn = some name ∧ op = Except.ok file ∧
      file.asGroup = Except.ok root ∧
      GroupInfo.tryFromGroupAndLink root rootLinkInfo = some (Except.ok gi) ∧
      fi.name = name ∧ fi.size = file.size ∧ fi.entities = gi.entities := by
  refine ⟨rfl, ?_⟩
  cases fn with
  | none => simp [FileInfo.read] at h
  | some name =>
    cases op with
    | error e => simp [FileInfo.read] at h
    | ok file =>
      cases hg : file.asGroup with
      | error e => simp [FileInfo.read, hg] at h
      | ok root =>
        cases hb : GroupInfo.tryFromGroupAndLink root rootLinkInfo with
        | none => simp [FileInfo.read, hg, hb] at h
        | some r =>
          cases r with
          | error e => simp [FileInfo.read, hg, hb] at h
          | ok gi =>
            have hfi : fi =
                { name := name, size := file.size, entities := gi.entities } := by
              simp [FileInfo.read, hg, hb] at h
              exact h.symm
            subst hfi
            exact ⟨name, file, root, gi, rfl, rfl, hg, hb, rfl, rfl, rfl⟩

/-- Witness for C4: loading the fixture file `fileW` succeeds and surfaces
the root's children. -/
theorem read_root_link_hard_and_children_surfaced_witness :
    FileInfo.read (some fileStr) (Except.ok fileW) = some (Except.ok fiW) ∧
    (rootLinkInfo.linkType = LinkType.hard ∧
      ∃ name file root gi, (some fileStr : Option String) = some name ∧
        (Except.ok fileW : Except String NativeFile) = Except.ok file ∧
        file.asGroup = Except.ok root ∧
        GroupInfo.tryFromGroupAndLink root rootLinkInfo = some (Except.ok gi) ∧
        fiW.name = name ∧ fiW.size = file.size ∧ fiW.entities = gi.entities) :=
  ⟨rfl, read_root_link_hard_and_children_surfaced (some fileStr)
    (Except.ok fileW) fiW rfl⟩
